import Mathlib

/-!
Verification development for the Warp-Core benchmark harness
(src/warp-core-benchmark-v3.js, function runBenchmark).

The harness is shallowly embedded:
* JS numbers are modelled as rationals, so every arithmetic identity is
  exact; where the embedding and JS float semantics part ways (division by
  zero) the divergence is noted at the theorem.
* The GPU command stream of runBenchmark is embedded as an event trace
  (submissions, queue drains, timestamp records) in source order, together
  with a queue state machine that retires in-flight work on a drain.
* Operations the harness delegates to the WebGPU platform (device request
  validation, bind-group layout validation) are not in src/; those two
  definitions are modelled from the spec and say so in their doc comments.
-/

/-! ## Data model -/

/-- Result record of a run: source lines 74-77 return
`{ latency: avgLatency, tflops: tflops }`.  The spec calls these fields
`averageLatencyMs` and `throughputTFLOPS`. -/
structure RunMetrics where
  latency : ℚ
  tflops : ℚ
  deriving DecidableEq, Repr

/-- Error taxonomy of the spec (section 7).  The source itself only ever
throws a generic error when no adapter exists; the named kinds appear in
the spec-modelled platform operations below. -/
inductive BenchError where
  | NoAdapterError
  | AllocationError
  | LayoutMismatchError
  | DeviceLostError
  | MeasurementResolutionError
  | DeviceRequestError
  deriving DecidableEq, Repr

/-! ## Metrics calculator (source lines 64-70)

```js
const totalTime = end - start;
const avgLatency = totalTime / iterations;
const opsPerPass = 2 * Math.pow(dim, 2);
const tflops = (opsPerPass / (avgLatency / 1000)) / 1e12;
```
-/

/-- Metrics computation, transcribed from source lines 64-70.  `totalTime`
is the measured elapsed milliseconds. -/
def computeMetrics (totalTime : ℚ) (iterations : ℕ) (dim : ℕ) : RunMetrics :=
  let avgLatency := totalTime / (iterations : ℚ)
  let opsPerPass : ℚ := 2 * (dim : ℚ) ^ 2
  let tflops := (opsPerPass / (avgLatency / 1000)) / 10 ^ 12
  { latency := avgLatency, tflops := tflops }

/-- The source computes the metrics unconditionally: lines 64-70 contain no
positivity guard and no error path, so the fallible view of the metrics
computation always succeeds. -/
def computeMetricsE (totalTime : ℚ) (iterations : ℕ) (dim : ℕ) :
    Except BenchError RunMetrics :=
  .ok (computeMetrics totalTime iterations dim)

/-! ## Capability negotiator (source lines 5-12) -/

/-- The optional feature name queried on the adapter (source line 9). -/
def timestampFeature : String := "timestamp-query"

/-- Required-features list passed to requestDevice, transcribed from source
lines 9-12: `hasTimestamps ? ["timestamp-query"] : []` where
`hasTimestamps = adapter.features.has("timestamp-query")`. -/
def negotiateRequiredFeatures (adapterFeatures : List String) : List String :=
  if adapterFeatures.contains timestampFeature then [timestampFeature] else []

/-- Modelled from the spec: the device-request validation lives in the
WebGPU implementation, not in src/.  Spec section 4.1: requesting an
unsupported feature must fail the device request, so the request fails
exactly when some required feature is not advertised by the adapter. -/
def requestDevice (adapterFeatures required : List String) :
    Except BenchError Unit :=
  if required.all (fun f => adapterFeatures.contains f) then .ok ()
  else .error .DeviceRequestError

/-! ## Resource allocator (source lines 19-26) -/

/-- Byte sizes of the four buffers created at source lines 19-22.  Sizes
are rationals because JS division is exact rational division here. -/
structure BufferSet where
  inputBufferSize : ℚ
  weightBufferSize : ℚ
  outputBufferSize : ℚ
  paramBufferSize : ℚ
  deriving DecidableEq, Repr

/-- Buffer allocation, transcribed from source lines 19-22:
input `dim * 4`, weight `(dim * dim / 8) * 4`, output `dim * 4`,
params `16`. -/
def allocate (dim : ℕ) : BufferSet :=
  { inputBufferSize := (dim : ℚ) * 4
    weightBufferSize := ((dim : ℚ) * (dim : ℚ) / 8) * 4
    outputBufferSize := (dim : ℚ) * 4
    paramBufferSize := 16 }

/-- A scalar written into the params block: the source writes a
`Uint32Array` cell or a `Float32Array` cell.  The f32 payload is kept as
the exact rational value that the source literal denotes. -/
inductive Scalar where
  | u32 (value : ℕ)
  | f32 (value : ℚ)
  deriving DecidableEq, Repr

/-- The params block, as a map from byte offset to the scalar most
recently written at that offset. -/
def ParamsBlock := ℕ → Option Scalar

/-- A fresh params buffer: nothing written yet. -/
def emptyBlock : ParamsBlock := fun _ => none

/-- One `device.queue.writeBuffer(paramBuffer, offset, value)` call. -/
def writeBuffer (block : ParamsBlock) (offset : ℕ) (v : Scalar) :
    ParamsBlock :=
  fun o => if o = offset then some v else block o

/-- The three writes of source lines 24-26 as (offset, scalar) pairs:
dimension at 0 (u32), epsilon `1e-5` at 4 (f32), scale `1.0` at 8 (f32). -/
def paramWrites (dim : ℕ) : List (ℕ × Scalar) :=
  [(0, .u32 dim), (4, .f32 (1 / 100000)), (8, .f32 1)]

/-- Apply a list of writeBuffer calls in order. -/
def applyWrites (l : List (ℕ × Scalar)) (block : ParamsBlock) : ParamsBlock :=
  l.foldl (fun b w => writeBuffer b w.1 w.2) block

/-- The params upload exactly as the source performs it (lines 24-26, in
source order). -/
def uploadParams (dim : ℕ) : ParamsBlock :=
  writeBuffer
    (writeBuffer (writeBuffer emptyBlock 0 (.u32 dim)) 4 (.f32 (1 / 100000)))
    8 (.f32 1)

/-! ## Binding builder (source lines 28-36) -/

/-- The binding indices of the four entries the source supplies to
createBindGroup (lines 31-34): 0 input, 1 weight, 2 output, 3 params. -/
def expectedBindings : List ℕ := [0, 1, 2, 3]

/-- Modelled from the spec: the bind-group layout validation lives in the
WebGPU createBindGroup implementation, not in src/.  Spec section 4.3: the
build fails with LayoutMismatchError unless the pipeline declares exactly
the expected slots, in their expected order. -/
def createBindGroup (declaredSlots entries : List ℕ) :
    Except BenchError Unit :=
  if entries = declaredSlots then .ok () else .error .LayoutMismatchError

/-- The bind-group construction of source lines 28-36: the four fixed
entries are handed to the platform validator together with the binding
slots the supplied pipeline declares. -/
def buildBindingSet (declaredSlots : List ℕ) : Except BenchError Unit :=
  createBindGroup declaredSlots expectedBindings

/-! ## Execution driver (source lines 38-61)

The command stream of runBenchmark, in source order:

```js
// warm-up (lines 39-46)
... dispatchWorkgroups(dim) ... queue.submit(...);
await device.queue.onSubmittedWorkDone();
// measurement (lines 49-61)
const start = performance.now();
for (let i = 0; i < iterations; i++) { ... queue.submit(...); }
await device.queue.onSubmittedWorkDone();
const end = performance.now();
```
-/

/-- One queue submission: the finished command sequence of one encoder.
`encoderId` identifies the `createCommandEncoder()` call that built it
(the source creates a fresh encoder per submission), `bindGroup`
identifies the bind group set on the pass, `workgroups` is the dispatch
grid size. -/
structure Submission where
  encoderId : ℕ
  bindGroup : ℕ
  workgroups : ℕ
  deriving DecidableEq, Repr

/-- The host-side events runBenchmark performs against the queue and the
clock. -/
inductive Event where
  | submit (s : Submission)
  | drain
  | recordStart
  | recordEnd
  deriving DecidableEq, Repr

/-- The single bind group created at source lines 28-36 and reused by
every pass. -/
def theBindGroup : ℕ := 0

/-- The warm-up submission (source lines 39-45): encoder 0, the shared
bind group, `dim` workgroups. -/
def warmupSubmission (dim : ℕ) : Submission :=
  { encoderId := 0, bindGroup := theBindGroup, workgroups := dim }

/-- The i-th measured submission (source lines 50-57): a fresh encoder
(number `i + 1`, distinct from the warm-up encoder and from every other
iteration), the shared bind group, `dim` workgroups. -/
def measuredSubmission (dim i : ℕ) : Submission :=
  { encoderId := i + 1, bindGroup := theBindGroup, workgroups := dim }

/-- The measured submissions in issue order. -/
def measuredList (dim iterations : ℕ) : List Submission :=
  (List.range iterations).map (measuredSubmission dim)

/-- The event trace of runBenchmark, transcribed from source lines 38-61:
warm-up submit, drain, start timestamp, the back-to-back measured
submits, one final drain, end timestamp. -/
def benchTrace (dim iterations : ℕ) : List Event :=
  [.submit (warmupSubmission dim), .drain, .recordStart]
    ++ (measuredList dim iterations).map .submit
    ++ [.drain, .recordEnd]

/-- Queue-and-clock state observed while replaying the trace.  `inFlight`
holds submissions submitted but not yet retired, `retired` the retired
ones, `submitLog` every submission so far in order.  `atStart` and
`atEnd` snapshot `(inFlight, retired, submitLog)` at the moment the
corresponding timestamp is recorded. -/
structure DriverState where
  inFlight : List Submission
  retired : List Submission
  submitLog : List Submission
  atStart : Option (List Submission × List Submission × List Submission)
  atEnd : Option (List Submission × List Submission × List Submission)
  deriving DecidableEq, Repr

/-- The state before any event. -/
def initState : DriverState :=
  { inFlight := [], retired := [], submitLog := []
    atStart := none, atEnd := none }

/-- Queue semantics: a submit enqueues; a drain (onSubmittedWorkDone)
retires everything in flight; the record events snapshot the state. -/
def step (s : DriverState) (e : Event) : DriverState :=
  match e with
  | .submit sub =>
      { s with inFlight := s.inFlight ++ [sub]
               submitLog := s.submitLog ++ [sub] }
  | .drain =>
      { s with inFlight := [], retired := s.retired ++ s.inFlight }
  | .recordStart =>
      { s with atStart := some (s.inFlight, s.retired, s.submitLog) }
  | .recordEnd =>
      { s with atEnd := some (s.inFlight, s.retired, s.submitLog) }

/-- Replay the whole benchmark run. -/
def runDriver (dim iterations : ℕ) : DriverState :=
  (benchTrace dim iterations).foldl step initState

/-! ## Public entry point constants (source lines 14-15) -/

/-- `const dim = 4096;` (source line 14). -/
def benchDim : ℕ := 4096

/-- `const iterations = 100;` (source line 15). -/
def benchIterations : ℕ := 100

/-- The metrics runBenchmark returns for a measured elapsed time: the
computation of lines 64-70 instantiated at the two internal constants. -/
def runBenchmarkMetrics (totalTime : ℚ) : RunMetrics :=
  computeMetrics totalTime benchIterations benchDim

/-! ## Helper lemmas -/

/-- Replaying a block of consecutive submits just enqueues and logs them. -/
lemma foldl_step_submits (l : List Submission) (s : DriverState) :
    (l.map Event.submit).foldl step s =
      { s with inFlight := s.inFlight ++ l, submitLog := s.submitLog ++ l } := by
  induction l generalizing s with
  | nil => simp
  | cons x xs ih =>
      simp only [List.map_cons, List.foldl_cons, step]
      rw [ih]
      simp

/-- Two writeBuffer calls at distinct offsets commute. -/
lemma writeBuffer_comm (b : ParamsBlock) (o1 o2 : ℕ) (v1 v2 : Scalar)
    (h : o1 ≠ o2) :
    writeBuffer (writeBuffer b o1 v1) o2 v2 =
      writeBuffer (writeBuffer b o2 v2) o1 v1 := by
  funext o
  by_cases h1 : o = o1
  · subst h1
    simp [writeBuffer, h]
  · by_cases h2 : o = o2
    · subst h2
      simp [writeBuffer, h1, Ne.symm h]
    · simp [writeBuffer, h1, h2]

/-- Applying a list of writes whose offsets are pairwise distinct is
order independent. -/
lemma applyWrites_perm : ∀ {l l' : List (ℕ × Scalar)}, l.Perm l' →
    (l.map Prod.fst).Nodup → ∀ b : ParamsBlock,
      applyWrites l b = applyWrites l' b := by
  intro l l' p
  induction p with
  | nil => intro _ b; rfl
  | cons x p ih =>
      intro hnd b
      rw [List.map_cons] at hnd
      simp only [applyWrites, List.foldl_cons]
      exact ih (List.nodup_cons.mp hnd).2 _
  | swap x y l =>
      intro hnd b
      rw [List.map_cons, List.map_cons] at hnd
      have h0 : y.1 ∉ x.1 :: l.map Prod.fst := (List.nodup_cons.mp hnd).1
      have hxy : y.1 ≠ x.1 := by
        intro h
        exact h0 (by rw [h]; exact List.mem_cons_self _ _)
      simp only [applyWrites, List.foldl_cons]
      rw [writeBuffer_comm b y.1 x.1 y.2 x.2 hxy]
  | trans p1 p2 ih1 ih2 =>
      intro hnd b
      exact (ih1 hnd b).trans (ih2 (((p1.map Prod.fst).nodup_iff).mp hnd) b)

/-- Extract the submission carried by a submit event. -/
def eventSubmission : Event → Option Submission
  | .submit s => some s
  | _ => none

/-! ## Claim theorems -/

/-- Claim C2: for every elapsed time, iteration count and dimension all
strictly positive, the metrics computation returns an average latency of
elapsedMs / iterations and a throughput of
(opsPerPass / (averageLatencyMs / 1000)) / 1e12 with opsPerPass =
2 * dim^2. -/
theorem metrics_formula (elapsedMs : ℚ) (iterations dim : ℕ)
    (he : 0 < elapsedMs) (hi : 0 < iterations) (hd : 0 < dim) :
    (computeMetrics elapsedMs iterations dim).latency =
      elapsedMs / (iterations : ℚ) ∧
    (computeMetrics elapsedMs iterations dim).tflops =
      ((2 * (dim : ℚ) ^ 2) / ((elapsedMs / (iterations : ℚ)) / 1000)) /
        10 ^ 12 :=
  ⟨rfl, rfl⟩

/-- Witness for metrics_formula at elapsedMs = 250, iterations = 100,
dim = 4096. -/
theorem metrics_formula_witness :
    (0 : ℚ) < 250 ∧ 0 < 100 ∧ 0 < 4096 ∧
      ((computeMetrics 250 100 4096).latency = 250 / (100 : ℚ) ∧
       (computeMetrics 250 100 4096).tflops =
         ((2 * (4096 : ℚ) ^ 2) / ((250 / (100 : ℚ)) / 1000)) / 10 ^ 12) :=
  ⟨by norm_num, by norm_num, by norm_num,
    metrics_formula 250 100 4096 (by norm_num) (by norm_num) (by norm_num)⟩

/-- Claim C3, refuted: at dim = 4096, iterations = 100, elapsedMs = 250
the average latency is indeed 2.5 ms, but the throughput the code
computes is 131072 / 9765625 = 0.0134217728 TFLOPS, which is more than 13
away from the claimed approximate value 13.42. -/
theorem exampleScenario_counterexample :
    (computeMetrics 250 100 4096).latency = 5 / 2 ∧
    (computeMetrics 250 100 4096).tflops = 131072 / 9765625 ∧
    |(computeMetrics 250 100 4096).tflops - 1342 / 100| ≥ 13 := by
  have ht : (computeMetrics 250 100 4096).tflops = 131072 / 9765625 := by
    norm_num [computeMetrics]
  refine ⟨by norm_num [computeMetrics], ht, ?_⟩
  rw [ht, abs_of_nonpos (by norm_num)]
  norm_num

/-- Claim C3 as amended: at dim = 4096, iterations = 100, elapsedMs = 250
the code yields averageLatencyMs = 2.5 and throughputTFLOPS =
0.0134217728 exactly (13.42 GFLOPS, a factor 1000 below the claimed
13.42 TFLOPS). -/
theorem exampleScenario_amended :
    computeMetrics 250 100 4096 =
      { latency := 5 / 2, tflops := 131072 / 9765625 } := by
  norm_num [computeMetrics, RunMetrics.mk.injEq]

/-- Claim C4, refuted: at iterations = 0 and at elapsedMs = 0 the code
does not fail with MeasurementResolutionError; it divides anyway and
returns a result.  (In the exact rational model division by zero yields
0; in the JS source the same inputs produce Infinity or NaN, not an
error.) -/
theorem metricsGuard_counterexample :
    computeMetricsE 0 100 4096 = .ok { latency := 0, tflops := 0 } ∧
    computeMetricsE 250 0 4096 = .ok { latency := 0, tflops := 0 } ∧
    computeMetricsE 0 100 4096 ≠
      .error BenchError.MeasurementResolutionError ∧
    computeMetricsE 250 0 4096 ≠
      .error BenchError.MeasurementResolutionError := by
  refine ⟨?_, ?_, by simp [computeMetricsE], by simp [computeMetricsE]⟩ <;>
    norm_num [computeMetricsE, computeMetrics, RunMetrics.mk.injEq]

/-- Claim C4 as amended: the metrics computation of source lines 64-70
has no positivity guard and no error path at all; for every input,
including a zero iteration count or a zero elapsed time, it performs the
division and succeeds with the computed record.  (In JS the zero cases
produce Infinity or NaN rather than any error.) -/
theorem metrics_never_fails (elapsedMs : ℚ) (iterations dim : ℕ) :
    computeMetricsE elapsedMs iterations dim =
      .ok (computeMetrics elapsedMs iterations dim) :=
  rfl

/-- Claim C6: for every dim > 0 the allocator sizes the input and output
buffers at dim * 4 bytes each, the weight buffer at (dim * dim / 8) * 4
bytes, and the params buffer at the fixed 16 bytes. -/
theorem buffer_sizes (dim : ℕ) (hd : 0 < dim) :
    (allocate dim).inputBufferSize = (dim : ℚ) * 4 ∧
    (allocate dim).outputBufferSize = (dim : ℚ) * 4 ∧
    (allocate dim).weightBufferSize = ((dim : ℚ) * (dim : ℚ) / 8) * 4 ∧
    (allocate dim).paramBufferSize = 16 :=
  ⟨rfl, rfl, rfl, rfl⟩

/-- Witness for buffer_sizes at dim = 4096. -/
theorem buffer_sizes_witness :
    0 < 4096 ∧
      ((allocate 4096).inputBufferSize = (4096 : ℚ) * 4 ∧
       (allocate 4096).outputBufferSize = (4096 : ℚ) * 4 ∧
       (allocate 4096).weightBufferSize = ((4096 : ℚ) * 4096 / 8) * 4 ∧
       (allocate 4096).paramBufferSize = 16) := by
  refine ⟨by norm_num, ?_⟩
  have h := buffer_sizes 4096 (by norm_num)
  simpa using h

/-- Claim C10: the public entry point fixes dim = 4096 and
iterations = 100 internally, so the latency divisor is the positive
constant 100 and the division-by-zero case for the iteration count is
unreachable through the public interface. -/
theorem publicEntry_constants :
    benchDim = 4096 ∧ benchIterations = 100 ∧ 0 < benchIterations ∧
    (100 : ℚ) ≠ 0 ∧
    ∀ elapsedMs : ℚ,
      runBenchmarkMetrics elapsedMs = computeMetrics elapsedMs 100 4096 ∧
      (runBenchmarkMetrics elapsedMs).latency = elapsedMs / 100 := by
  refine ⟨rfl, rfl, by norm_num [benchIterations], by norm_num, ?_⟩
  intro elapsedMs
  constructor
  · rfl
  · show elapsedMs / ((100 : ℕ) : ℚ) = elapsedMs / 100
    norm_num

/-- Claim C7: the parameter upload writes the dimension (u32) at byte
offset 0, epsilon (f32, default 1e-5) at offset 4 and scale (f32, default
1.0) at offset 8 of the 16-byte params block, and any order of the three
writes produces the same block contents. -/
theorem params_upload (dim : ℕ) (l : List (ℕ × Scalar))
    (hp : l.Perm (paramWrites dim)) :
    applyWrites l emptyBlock = uploadParams dim ∧
    uploadParams dim 0 = some (.u32 dim) ∧
    uploadParams dim 4 = some (.f32 (1 / 100000)) ∧
    uploadParams dim 8 = some (.f32 1) := by
  refine ⟨?_, rfl, rfl, rfl⟩
  have h1 : (l.map Prod.fst).Perm ((paramWrites dim).map Prod.fst) :=
    hp.map Prod.fst
  have hnd : (l.map Prod.fst).Nodup :=
    (h1.nodup_iff).mpr (by simp [paramWrites])
  exact (applyWrites_perm hp hnd emptyBlock).trans rfl

/-- Witness for params_upload at dim = 4096 with the writes issued in
the order scale, dimension, epsilon. -/
theorem params_upload_witness :
    ([(8, Scalar.f32 1), (0, Scalar.u32 4096),
      (4, Scalar.f32 (1 / 100000))] : List (ℕ × Scalar)).Perm
        (paramWrites 4096) ∧
    (applyWrites
        [(8, Scalar.f32 1), (0, Scalar.u32 4096),
         (4, Scalar.f32 (1 / 100000))] emptyBlock = uploadParams 4096 ∧
     uploadParams 4096 0 = some (.u32 4096) ∧
     uploadParams 4096 4 = some (.f32 (1 / 100000)) ∧
     uploadParams 4096 8 = some (.f32 1)) := by
  have p1 :
      ([(8, Scalar.f32 1), (0, Scalar.u32 4096),
        (4, Scalar.f32 (1 / 100000))] : List (ℕ × Scalar)).Perm
        [(0, Scalar.u32 4096), (8, Scalar.f32 1),
         (4, Scalar.f32 (1 / 100000))] :=
    List.Perm.swap _ _ _
  have p2 :
      ([(0, Scalar.u32 4096), (8, Scalar.f32 1),
        (4, Scalar.f32 (1 / 100000))] : List (ℕ × Scalar)).Perm
        (paramWrites 4096) :=
    List.Perm.cons _ (List.Perm.swap _ _ _)
  have hp := p1.trans p2
  exact ⟨hp, params_upload 4096 _ hp⟩

/-- Claim C8: the required-features set handed to the device request
contains the timestamp feature exactly when the adapter advertises it, is
empty otherwise, and the request the negotiator issues never fails on
feature grounds. -/
theorem negotiation_gates_request (adapterFeatures : List String) :
    (timestampFeature ∈ negotiateRequiredFeatures adapterFeatures ↔
      timestampFeature ∈ adapterFeatures) ∧
    (timestampFeature ∉ adapterFeatures →
      negotiateRequiredFeatures adapterFeatures = []) ∧
    requestDevice adapterFeatures
      (negotiateRequiredFeatures adapterFeatures) = .ok () := by
  by_cases h : timestampFeature ∈ adapterFeatures <;>
    simp [negotiateRequiredFeatures, requestDevice, h]

/-- Witness for negotiation_gates_request: an adapter advertising nothing
gets an empty required-features list and a successful device request. -/
theorem negotiation_gates_request_witness :
    (timestampFeature ∈ negotiateRequiredFeatures [] ↔
      timestampFeature ∈ ([] : List String)) ∧
    (timestampFeature ∉ ([] : List String) →
      negotiateRequiredFeatures [] = []) ∧
    requestDevice [] (negotiateRequiredFeatures []) = .ok () :=
  negotiation_gates_request []

/-- Claim C9: building the binding set fails with LayoutMismatchError
whenever the supplied pipeline does not declare exactly the four expected
binding slots 0, 1, 2, 3. -/
theorem layoutMismatch (declaredSlots : List ℕ)
    (h : declaredSlots ≠ expectedBindings) :
    buildBindingSet declaredSlots = .error .LayoutMismatchError := by
  have h2 : expectedBindings ≠ declaredSlots := fun e => h e.symm
  simp [buildBindingSet, createBindGroup, h2]

/-- Witness for layoutMismatch: a pipeline declaring only the 3 slots
0, 1, 2 raises LayoutMismatchError. -/
theorem layoutMismatch_witness :
    ([0, 1, 2] : List ℕ) ≠ expectedBindings ∧
    buildBindingSet [0, 1, 2] = .error .LayoutMismatchError :=
  ⟨by decide, layoutMismatch [0, 1, 2] (by decide)⟩

/-- Claim C1: replaying the run, the start timestamp is recorded at a
moment where the warm-up submission has been submitted and fully retired
and nothing is in flight, and the end timestamp is recorded at a moment
where every submission of the run - the warm-up followed by exactly the
measured ones - has been retired and nothing is in flight; hence the
measured interval contains exactly the measured submissions, with the
warm-up excluded and no in-flight work at either boundary. -/
theorem timing_boundaries (dim iterations : ℕ) :
    (runDriver dim iterations).atStart =
      some ([], [warmupSubmission dim], [warmupSubmission dim]) ∧
    (runDriver dim iterations).atEnd =
      some ([], warmupSubmission dim :: measuredList dim iterations,
            warmupSubmission dim :: measuredList dim iterations) := by
  have h1 : runDriver dim iterations =
      ([Event.drain, Event.recordEnd]).foldl step
        (((measuredList dim iterations).map Event.submit).foldl step
          (([Event.submit (warmupSubmission dim), Event.drain,
             Event.recordStart]).foldl step initState)) := by
    rw [runDriver, benchTrace, List.foldl_append, List.foldl_append]
  rw [h1, foldl_step_submits]
  constructor <;> rfl

/-- Claim C5: the measuring phase of the trace is a contiguous block,
between the start timestamp and the single final drain, of exactly
`iterations` submit events; each submission binds the shared bind group,
dispatches exactly `dim` workgroups and uses an encoder distinct from the
warm-up encoder and from every other iteration (a fresh command
sequence); and no drain separates two measured submissions - the only
wait after the start timestamp is the one final drain before the end
timestamp. -/
theorem measuring_loop (dim iterations : ℕ) :
    ∃ mid : List Event,
      benchTrace dim iterations =
        [Event.submit (warmupSubmission dim), Event.drain,
         Event.recordStart] ++ mid ++ [Event.drain, Event.recordEnd] ∧
      mid.length = iterations ∧
      (∀ e ∈ mid, ∃ s : Submission,
        e = Event.submit s ∧ s.bindGroup = theBindGroup ∧
        s.workgroups = dim ∧
        s.encoderId ≠ (warmupSubmission dim).encoderId) ∧
      ((mid.filterMap eventSubmission).map Submission.encoderId).Nodup ∧
      ∀ e ∈ mid, e ≠ Event.drain := by
  refine ⟨(measuredList dim iterations).map Event.submit, rfl, ?_, ?_, ?_, ?_⟩
  · simp [measuredList]
  · intro e he
    simp only [measuredList, List.map_map, List.mem_map,
      List.mem_range] at he
    obtain ⟨i, _, rfl⟩ := he
    exact ⟨measuredSubmission dim i, rfl, rfl, rfl, Nat.succ_ne_zero i⟩
  · have hf : ((measuredList dim iterations).map Event.submit).filterMap
        eventSubmission = measuredList dim iterations := by
      rw [List.filterMap_map]
      have hc : eventSubmission ∘ Event.submit = some := by
        funext s
        rfl
      rw [hc, List.filterMap_some]
    rw [hf]
    have hinj : Function.Injective (fun i : ℕ => i + 1) :=
      fun a b h => by simpa using h
    have : (measuredList dim iterations).map Submission.encoderId =
        (List.range iterations).map (fun i => i + 1) := by
      simp [measuredList, measuredSubmission, List.map_map, Function.comp]
    rw [this]
    exact (List.nodup_range iterations).map hinj
  · intro e he
    simp only [List.mem_map] at he
    obtain ⟨s, _, rfl⟩ := he
    simp
